import Mathlib

/-!
# Verification of the DiffusionDB loading script

A shallow embedding of `scripts/diffusiondb.py`: the configuration catalog
(`BUILDER_CONFIGS`), the sampler-code dictionary (`_SAMPLER_DICT`), and the
example generator (`DiffusionDB._generate_examples`) in both its text-only
branch (rows of the consolidated metadata parquet) and its image branch
(per-shard JSON sidecars joined with image files on disk).

Python dynamic values appearing in sidecars are modelled by `JValue`
(JSON-decoded scalars); Python `int(...)` and `float(...)` are modelled by
`pyToInt` / `pyToFloat` over decimal literals (exponent forms, underscores,
inf/nan are outside the model).  Floats are modelled as exact decimals.
The filesystem is an association list from paths to byte lists; the lazy
generator is modelled as the list of yielded `(key, example)` pairs together
with the error, if any, that aborts the stream.
-/

namespace DiffusionDB

/-- An exact decimal number `mant / 10 ^ exp10`, the model of a Python float
(every value handled by the script is a short decimal literal, so exact
decimals model the values faithfully).  Values are kept in canonical form
(no factor of 10 removable from the fraction), so structural equality is
value equality. -/
structure PyFloat where
  mant : Int
  exp10 : Nat
deriving DecidableEq, Repr

/-- `10 ^ n`, kept as an explicit recursion so it evaluates by reduction. -/
def tenPow : Nat → Nat
  | 0 => 1
  | n + 1 => 10 * tenPow n

/-- Remove factors of 10 shared between mantissa and denominator. -/
def stripTens : Int → Nat → Int × Nat
  | m, 0 => (m, 0)
  | m, e + 1 => if m % 10 = 0 then stripTens (m / 10) e else (m, e + 1)

/-- The canonical decimal with value `m / 10 ^ e`. -/
def decVal (m : Int) (e : Nat) : PyFloat :=
  ⟨(stripTens m e).1, (stripTens m e).2⟩

/-- Negation of a decimal (canonical form is preserved). -/
def negVal (f : PyFloat) : PyFloat := ⟨-f.mant, f.exp10⟩

/-- Truncation toward zero, the behaviour of Python `int()` on a float. -/
def truncVal (f : PyFloat) : Int :=
  if 0 ≤ f.mant then f.mant / (tenPow f.exp10 : Int)
  else -((-f.mant) / (tenPow f.exp10 : Int))

/-- A JSON-decoded scalar value as found in a shard's sidecar.  Python's
`json.load` produces strings, ints, floats, booleans and `None`; floats are
modelled as exact decimals in canonical form. -/
inductive JValue where
  | jstr (s : String)
  | jint (n : Int)
  | jfloat (q : PyFloat)
  | jbool (b : Bool)
  | jnull
deriving DecidableEq, Repr

/-- The nine canonical sampler tokens, in dictionary order
(`_SAMPLER_DICT`, lines 55-65). -/
def samplerTokens : List String :=
  ["ddim", "plms", "k_euler", "k_euler_ancestral", "ddik_heunm",
   "k_dpm_2", "k_dpm_2_ancestral", "k_lms", "others"]

/-- `_SAMPLER_DICT` (lines 55-65): the lookup `_SAMPLER_DICT[c]` succeeds for
keys 1..9 and raises `KeyError` (modelled as `none`) for any other key. -/
def samplerDict (c : Int) : Option String :=
  if c = 1 then some "ddim"
  else if c = 2 then some "plms"
  else if c = 3 then some "k_euler"
  else if c = 4 then some "k_euler_ancestral"
  else if c = 5 then some "ddik_heunm"
  else if c = 6 then some "k_dpm_2"
  else if c = 7 then some "k_dpm_2_ancestral"
  else if c = 8 then some "k_lms"
  else if c = 9 then some "others"
  else none

/-- `_PART_IDS = range(1, 2001)` (line 43): the shard ids 1..2000. -/
def PART_IDS : List Nat := List.range' 1 2000

/-- One entry of `BUILDER_CONFIGS`: a `DiffusionDBConfig(name, part_ids,
description)` (lines 68-78). -/
structure DiffusionDBConfig where
  name : String
  part_ids : List Nat
  description : String
deriving DecidableEq, Repr

/-- The list `[1, 5, 10, 50, 100, 500, 1000]` iterated at line 88. -/
def numKList : List Nat := [1, 5, 10, 50, 100, 500, 1000]

/-- `num_k_str = f"{num_k}k" if num_k < 1000 else f"{num_k // 1000}m"`
(line 90). -/
def numKStr (num_k : Nat) : String :=
  if num_k < 1000 then toString num_k ++ "k" else toString (num_k / 1000) ++ "m"

/-- `part_ids = _PART_IDS[1 : num_k + 1]` (line 111): the Python slice keeps
the elements at indices `1 .. num_k` of `range(1, 2001)`. -/
def firstPartIds (num_k : Nat) : List Nat := (PART_IDS.drop 1).take num_k

/-- Specification of `np.random.choice(pool, n, replace=False).tolist()`
(line 102): some list of `n` distinct elements of `pool`.  The actual draw is
nondeterministic, so the catalog is parametrised by the drawn lists. -/
def IsChoiceNoReplace (pool : List Nat) (n : Nat) (l : List Nat) : Prop :=
  l.length = n ∧ l.Nodup ∧ ∀ x ∈ l, x ∈ pool

/-- `BUILDER_CONFIGS` (lines 84-138), parametrised by the random draws:
`rand num_k` stands for the list produced by `np.random.choice` for size
`num_k`.  The loop appends, for each `num_k`, the `first_*` config then the
`random_*` config, and finally the `all` and `text_only` configs. -/
def buildConfigs (rand : Nat → List Nat) : List DiffusionDBConfig :=
  (numKList.flatMap fun num_k =>
    [ ⟨"first_" ++ numKStr num_k, firstPartIds num_k,
       "The first " ++ numKStr num_k ++
         " images in this dataset with their prompts and parameters"⟩,
      ⟨"random_" ++ numKStr num_k, rand num_k,
       "Random " ++ numKStr num_k ++ " images with their prompts and parameters"⟩ ])
  ++ [⟨"all", PART_IDS, "All images with their prompts and parameters"⟩,
      ⟨"text_only", [], "Only include all prompts and parameters (no image)"⟩]

/-- Resolving a configuration name to its shard-id list: the lookup of
`self.config` by name among `BUILDER_CONFIGS` (the datasets library selects
the entry whose `name` matches; an unrecognized name fails, modelled as
`none`). -/
def resolveConfig (catalog : List DiffusionDBConfig) (nm : String) :
    Option (List Nat) :=
  (catalog.find? fun c => c.name == nm).map fun c => c.part_ids

/-- A fixed admissible family of draws (used to instantiate the catalog at
concrete inputs): `[1, ..., n]` is one possible output of
`np.random.choice(_PART_IDS, n, replace=False)` whenever `n ≤ 2000`. -/
def rand0 (n : Nat) : List Nat := List.range' 1 n

/-! ## Text-only branch (lines 225-236) -/

/-- One row of the consolidated `metadata.parquet` table, with the column
types documented for it (`image_name:string, prompt:string, part_id:int64,
seed:int64, step:int64, cfg:float32, sampler:int64`). -/
structure MetadataRow where
  image_name : String
  prompt : String
  part_id : Int
  seed : Int
  step : Int
  cfg : PyFloat
  sampler : Int
deriving DecidableEq, Repr

/-- The example dict yielded by the text-only branch (lines 228-236). -/
structure TextExample where
  image_name : String
  prompt : String
  part_id : Int
  seed : Int
  step : Int
  cfg : PyFloat
  sampler : String
deriving DecidableEq, Repr

/-- The exceptions that abort a generation stream: `KeyError` on an unknown
sampler code (spec name UnknownSamplerCode), `FileNotFoundError` on a missing
image file (spec name MissingAsset), and `ValueError`/`TypeError` from
`int(...)`/`float(...)` on an unconvertible sidecar value. -/
inductive GenError where
  | unknownSamplerCode (code : Int)
  | missingAsset (path : String)
  | badConversion (img_name : String) (field : String)
deriving DecidableEq, Repr

/-- The text-only loop (lines 227-236): for each row in file order, yield
`(image_name, example)` with the sampler code translated through
`_SAMPLER_DICT[int(row["sampler"])]`; an unknown code raises, aborting the
stream at that row.  Returns the yielded pairs and the aborting error, if
any. -/
def generateTextExamples :
    List MetadataRow → List (String × TextExample) × Option GenError
  | [] => ([], none)
  | r :: rest =>
    match samplerDict r.sampler with
    | none => ([], some (GenError.unknownSamplerCode r.sampler))
    | some tok =>
      let p := generateTextExamples rest
      ((r.image_name,
        ⟨r.image_name, r.prompt, r.part_id, r.seed, r.step, r.cfg, tok⟩) :: p.1,
       p.2)

/-! ## Image branch (lines 238-264) -/

/-- `os.path.join(cur_data_dir, img_name)` (line 251) for a relative
filename. -/
def pathJoin (dir nm : String) : String := dir ++ "/" ++ nm

/-- The sidecar entry for one image: the object
`{"p": ..., "se": ..., "st": ..., "c": ..., "sa": ...}` (lines 259-263). -/
structure ImgParams where
  p : JValue
  se : JValue
  st : JValue
  c : JValue
  sa : JValue
deriving DecidableEq, Repr

/-- Surrounding-whitespace removal on a character list (Python's numeric
constructors strip whitespace around the literal). -/
def charsTrim (cs : List Char) : List Char :=
  ((cs.dropWhile Char.isWhitespace).reverse.dropWhile Char.isWhitespace).reverse

/-- The value of a nonempty all-digit character list, `none` otherwise. -/
def digitsValAux : List Char → Nat → Option Nat
  | [], acc => some acc
  | ch :: rest, acc =>
    if ch.isDigit then digitsValAux rest (acc * 10 + (ch.toNat - 48)) else none

/-- The value of a nonempty all-digit character list, `none` otherwise. -/
def digitsVal (cs : List Char) : Option Nat :=
  if cs.isEmpty then none else digitsValAux cs 0

/-- Optional sign, then decimal digits. -/
def parseIntChars : List Char → Option Int
  | [] => none
  | ch :: rest =>
    if ch = '-' then (digitsVal rest).map fun n => -(n : Int)
    else if ch = '+' then (digitsVal rest).map fun n => (n : Int)
    else (digitsVal (ch :: rest)).map fun n => (n : Int)

/-- Python `int(s)` on a string: optional surrounding whitespace, an optional
sign, then decimal digits (underscored literals are outside the model). -/
def parseIntStr (s : String) : Option Int :=
  parseIntChars (charsTrim s.data)

/-- The digits-and-dot part of a Python float literal: `d+`, `d+.d*`, or
`.d+`, with value `whole + frac / 10 ^ fracDigits`. -/
def parseUnsignedFloatChars (cs : List Char) : Option PyFloat :=
  let a := cs.takeWhile fun ch => ch != '.'
  match cs.dropWhile fun ch => ch != '.' with
  | [] => (digitsVal a).map fun n => decVal n 0
  | _ :: b =>
    if b.contains '.' then none
    else if a.isEmpty && b.isEmpty then none
    else
      match (if a.isEmpty then some 0 else digitsVal a),
            (if b.isEmpty then some 0 else digitsVal b) with
      | some x, some y => some (decVal (x * tenPow b.length + y) b.length)
      | _, _ => none

/-- Optional sign, then a decimal float literal. -/
def parseFloatChars : List Char → Option PyFloat
  | [] => none
  | ch :: rest =>
    if ch = '-' then (parseUnsignedFloatChars rest).map negVal
    else if ch = '+' then parseUnsignedFloatChars rest
    else parseUnsignedFloatChars (ch :: rest)

/-- Python `float(s)` on a string: optional surrounding whitespace, optional
sign, then a decimal literal (exponent forms and inf/nan are outside the
model). -/
def parseFloatStr (s : String) : Option PyFloat :=
  parseFloatChars (charsTrim s.data)

/-- Python `int(v)` on a JSON-decoded value: identity on ints, truncation on
floats, parsing on strings, 0/1 on booleans; `None` raises `TypeError`. -/
def pyToInt : JValue → Option Int
  | JValue.jint n => some n
  | JValue.jfloat q => some (truncVal q)
  | JValue.jstr s => parseIntStr s
  | JValue.jbool b => some (if b then 1 else 0)
  | JValue.jnull => none

/-- Python `float(v)` on a JSON-decoded value: casts ints and booleans,
identity on floats, parsing on strings; `None` raises `TypeError`. -/
def pyToFloat : JValue → Option PyFloat
  | JValue.jint n => some (decVal n 0)
  | JValue.jfloat q => some q
  | JValue.jstr s => parseFloatStr s
  | JValue.jbool b => some (decVal (if b then 1 else 0) 0)
  | JValue.jnull => none

/-- The example dict yielded by the image branch (lines 254-263): the image
payload (path and bytes) and the decoded parameters.  `prompt` and `sampler`
are copied verbatim from the sidecar (`img_params["p"]`, `img_params["sa"]`,
no conversion), so they keep type `JValue`. -/
structure ImageExample where
  image_path : String
  image_bytes : List Nat
  prompt : JValue
  seed : Int
  step : Int
  cfg : PyFloat
  sampler : JValue
deriving DecidableEq, Repr

/-- The extracted files on disk: an association from path to byte content. -/
abbrev FileSys := List (String × List Nat)

/-- `open(img_path, "rb").read()`: the bytes at a path, or `none` when the
file is missing (`FileNotFoundError`). -/
def readFileBytes (fs : FileSys) (path : String) : Option (List Nat) :=
  (fs.find? fun e => e.1 == path).map fun e => e.2

/-- Evaluation of the yielded dict for one sidecar entry (lines 251-263), in
Python's evaluation order: the image file is opened and read first, then
`int(img_params["se"])`, `int(img_params["st"])`, `float(img_params["c"])`;
`img_params["p"]` and `img_params["sa"]` are passed through untouched.  The
first failing step raises, producing the corresponding error. -/
def entryStep (fs : FileSys) (dir img_name : String) (ps : ImgParams) :
    Except GenError (String × ImageExample) :=
  let img_path := pathJoin dir img_name
  match readFileBytes fs img_path with
  | none => Except.error (GenError.missingAsset img_path)
  | some bs =>
    match pyToInt ps.se with
    | none => Except.error (GenError.badConversion img_name "se")
    | some se =>
      match pyToInt ps.st with
      | none => Except.error (GenError.badConversion img_name "st")
      | some st =>
        match pyToFloat ps.c with
        | none => Except.error (GenError.badConversion img_name "c")
        | some c =>
          Except.ok (img_name, ⟨img_path, bs, ps.p, se, st, c, ps.sa⟩)

/-- Whether processing a sidecar entry succeeds. -/
def stepOk (r : Except GenError (String × ImageExample)) : Bool :=
  match r with
  | Except.ok _ => true
  | Except.error _ => false

/-- The inner loop `for img_name in json_data` (lines 249-264) over one
shard's sidecar entries, in insertion order: yield one `(img_name, example)`
pair per entry; the first raising entry aborts the stream there. -/
def genShardEntries (fs : FileSys) (dir : String) :
    List (String × ImgParams) → List (String × ImageExample) × Option GenError
  | [] => ([], none)
  | (img_name, ps) :: rest =>
    match entryStep fs dir img_name ps with
    | Except.error e => ([], some e)
    | Except.ok kv =>
      let p := genShardEntries fs dir rest
      (kv :: p.1, p.2)

/-- One downloaded-and-extracted shard as the generator sees it: its
extracted directory and its already-parsed sidecar object, an ordered list of
`filename ↦ parameters` entries (`json.load` preserves key order). -/
structure Shard where
  dir : String
  sidecar : List (String × ImgParams)
deriving DecidableEq, Repr

/-- The outer loop `for k in range(num_data_dirs)` (lines 243-264) over the
resolved shards, in order: generate each shard's entries; an error aborts the
whole stream, keeping everything yielded so far. -/
def generateImageExamples (fs : FileSys) :
    List Shard → List (String × ImageExample) × Option GenError
  | [] => ([], none)
  | sh :: rest =>
    let p := genShardEntries fs sh.dir sh.sidecar
    match p.2 with
    | some e => (p.1, some e)
    | none =>
      let q := generateImageExamples fs rest
      (p.1 ++ q.1, q.2)

/-! ## Concrete inputs used to instantiate the theorems -/

/-- The spec's worked text-only row:
`{image_name:"x", prompt:"dog", part_id:3, seed:9, step:10, cfg:6.0, sampler:2}`. -/
def rowC7 : MetadataRow := ⟨"x", "dog", 3, 9, 10, decVal 6 0, 2⟩

/-- The example expected from `rowC7`. -/
def exC7 : TextExample := ⟨"x", "dog", 3, 9, 10, decVal 6 0, "plms"⟩

/-- A consolidated-table row whose sampler code 0 is outside `[1, 9]`. -/
def rowBad : MetadataRow := ⟨"y", "cat", 1, 4, 50, decVal 75 1, 0⟩

/-- The spec's worked shard: images `a.png`, `b.png` with the two-entry
sidecar from the spec. -/
def paramsA6 : ImgParams :=
  ⟨JValue.jstr "cat", JValue.jint 1, JValue.jint 20,
   JValue.jfloat (decVal 75 1), JValue.jstr "ddim"⟩

/-- Second sidecar entry of the spec's worked shard. -/
def paramsB6 : ImgParams :=
  ⟨JValue.jstr "dog", JValue.jint 2, JValue.jint 30,
   JValue.jfloat (decVal 8 0), JValue.jstr "plms"⟩

/-- Extracted files of the spec's worked shard. -/
def fsC6 : FileSys := [("dir/a.png", [137, 80]), ("dir/b.png", [137, 81])]

/-- The spec's worked shard. -/
def shardC6 : Shard := ⟨"dir", [("a.png", paramsA6), ("b.png", paramsB6)]⟩

/-- Expected first example of the worked shard. -/
def exA6 : ImageExample :=
  ⟨"dir/a.png", [137, 80], JValue.jstr "cat", 1, 20, decVal 75 1, JValue.jstr "ddim"⟩

/-- Expected second example of the worked shard. -/
def exB6 : ImageExample :=
  ⟨"dir/b.png", [137, 81], JValue.jstr "dog", 2, 30, decVal 8 0, JValue.jstr "plms"⟩

/-- A sidecar entry whose `sa` value is not one of the nine canonical
tokens. -/
def paramsC3 : ImgParams :=
  ⟨JValue.jstr "cat", JValue.jint 1, JValue.jint 20,
   JValue.jfloat (decVal 75 1), JValue.jstr "weird_sampler"⟩

/-- Files for the non-canonical-sampler shard. -/
def fsC3 : FileSys := [("d/a.png", [1, 2])]

/-- A shard whose only sidecar entry carries the non-canonical sampler. -/
def shardC3 : Shard := ⟨"d", [("a.png", paramsC3)]⟩

/-- Files for the missing-asset scenario: only `a.png` exists on disk. -/
def fsC5 : FileSys := [("d/a.png", [9])]

/-- Sidecar entry for the existing image `a.png`. -/
def paramsA5 : ImgParams :=
  ⟨JValue.jstr "cat", JValue.jint 1, JValue.jint 20,
   JValue.jfloat (decVal 75 1), JValue.jstr "ddim"⟩

/-- Sidecar entry for `b.png`, which is listed but absent on disk. -/
def paramsB5 : ImgParams :=
  ⟨JValue.jstr "dog", JValue.jint 2, JValue.jint 30,
   JValue.jfloat (decVal 8 0), JValue.jstr "plms"⟩

/-- Sidecar parameters whose seed is the numeric string `"7"` and whose cfg
is the numeric string `"7.5"`. -/
def paramsW10 : ImgParams :=
  ⟨JValue.jstr "cat", JValue.jstr "7", JValue.jint 20,
   JValue.jstr "7.5", JValue.jstr "ddim"⟩

/-- Files for the conversion scenario. -/
def fsW10 : FileSys := [("d/a.png", [3])]

/-- A text-only row with the valid sampler code 3. -/
def rowC3w : MetadataRow := ⟨"z", "bird", 2, 5, 25, decVal 9 0, 3⟩

/-- The example expected from `rowC3w`. -/
def exC3w : TextExample := ⟨"z", "bird", 2, 5, 25, decVal 9 0, "k_euler"⟩

/-! ## Helper lemmas -/

/-- A prefix of `range'` is a shorter `range'`. -/
theorem take_range' (m : Nat) : ∀ (n s : Nat), m ≤ n →
    (List.range' s n).take m = List.range' s m := by
  induction m with
  | zero => intro n s _; simp
  | succ k ih =>
    intro n s h
    cases n with
    | zero => omega
    | succ n' =>
      have h1 : List.range' s (n' + 1) = s :: List.range' (s + 1) n' := rfl
      have h2 : List.range' s (k + 1) = s :: List.range' (s + 1) k := rfl
      rw [h1, h2, List.take_succ_cons, ih n' (s + 1) (by omega)]

/-- The `first_*` slice is the contiguous block starting at shard id 2. -/
theorem firstPartIds_eq_range' (num_k : Nat) (h : num_k ≤ 1999) :
    firstPartIds num_k = List.range' 2 num_k := by
  have h1 : PART_IDS.drop 1 = List.range' 2 1999 := rfl
  rw [firstPartIds, h1, take_range' num_k 1999 2 h]

/-- `rand0` is an admissible draw for any size up to 2000. -/
theorem rand0_choice (n : Nat) (h : n ≤ 2000) :
    IsChoiceNoReplace PART_IDS n (rand0 n) := by
  refine ⟨List.length_range' .., List.nodup_range' .., ?_⟩
  intro x hx
  rw [rand0, List.mem_range'_1] at hx
  rw [PART_IDS, List.mem_range'_1]
  omega

/-- Resolving a `first_*` name finds the corresponding catalog entry. -/
theorem resolve_first (rand : Nat → List Nat) (num_k : Nat)
    (h : num_k ∈ numKList) :
    resolveConfig (buildConfigs rand) ("first_" ++ numKStr num_k)
      = some (firstPartIds num_k) := by
  fin_cases h <;> rfl

/-- Resolving a `random_*` name finds the corresponding catalog entry. -/
theorem resolve_random (rand : Nat → List Nat) (num_k : Nat)
    (h : num_k ∈ numKList) :
    resolveConfig (buildConfigs rand) ("random_" ++ numKStr num_k)
      = some (rand num_k) := by
  fin_cases h <;> rfl

/-- Resolving `all` yields the full id list. -/
theorem resolve_all (rand : Nat → List Nat) :
    resolveConfig (buildConfigs rand) "all" = some PART_IDS := rfl

/-- `_SAMPLER_DICT` has exactly the keys 1..9. -/
theorem samplerDict_isSome (c : Int) :
    (samplerDict c).isSome = true ↔ 1 ≤ c ∧ c ≤ 9 := by
  unfold samplerDict
  split_ifs <;> simp_all
  omega

/-- Every value of `_SAMPLER_DICT` is a canonical token. -/
theorem samplerDict_token {c : Int} {tok : String}
    (h : samplerDict c = some tok) : tok ∈ samplerTokens := by
  unfold samplerDict at h
  split_ifs at h <;> simp_all [samplerTokens]

/-- Unfolding `generateTextExamples` on a row with a known sampler code. -/
theorem genText_cons_ok {r : MetadataRow} {rows : List MetadataRow}
    {tok : String} (h : samplerDict r.sampler = some tok) :
    generateTextExamples (r :: rows)
      = ((r.image_name,
          ⟨r.image_name, r.prompt, r.part_id, r.seed, r.step, r.cfg, tok⟩)
           :: (generateTextExamples rows).1,
         (generateTextExamples rows).2) := by
  simp [generateTextExamples, h]

/-- Unfolding `generateTextExamples` on a row with an unknown sampler code. -/
theorem genText_cons_err {r : MetadataRow} {rows : List MetadataRow}
    (h : samplerDict r.sampler = none) :
    generateTextExamples (r :: rows)
      = ([], some (GenError.unknownSamplerCode r.sampler)) := by
  simp [generateTextExamples, h]

/-- Rows that all carry known sampler codes are emitted completely, keyed by
their `image_name`, with no error. -/
theorem genText_keys_of_ok : ∀ rows : List MetadataRow,
    (∀ q ∈ rows, (samplerDict q.sampler).isSome = true) →
    (generateTextExamples rows).1.map Prod.fst = rows.map MetadataRow.image_name
    ∧ (generateTextExamples rows).2 = none := by
  intro rows
  induction rows with
  | nil => intro _; simp [generateTextExamples]
  | cons r rs ih =>
    intro h
    obtain ⟨tok, htok⟩ := Option.isSome_iff_exists.mp (h r (by simp))
    have ih' := ih fun q hq => h q (by simp [hq])
    rw [genText_cons_ok htok]
    simp [ih'.1, ih'.2]

/-- A run of known-code rows prepended to anything contributes its examples
and passes the remainder through. -/
theorem genText_append_of_ok : ∀ pre rest : List MetadataRow,
    (∀ q ∈ pre, (samplerDict q.sampler).isSome = true) →
    generateTextExamples (pre ++ rest)
      = ((generateTextExamples pre).1 ++ (generateTextExamples rest).1,
         (generateTextExamples rest).2) := by
  intro pre
  induction pre with
  | nil => intro rest _; simp [generateTextExamples]
  | cons r rs ih =>
    intro rest h
    obtain ⟨tok, htok⟩ := Option.isSome_iff_exists.mp (h r (by simp))
    have ih' := ih rest fun q hq => h q (by simp [hq])
    rw [List.cons_append, genText_cons_ok htok, ih', genText_cons_ok htok]
    simp

/-- Unfolding `genShardEntries` on a cons. -/
theorem genShardEntries_cons (fs : FileSys) (dir img_name : String)
    (ps : ImgParams) (rest : List (String × ImgParams)) :
    genShardEntries fs dir ((img_name, ps) :: rest)
      = match entryStep fs dir img_name ps with
        | Except.error e => ([], some e)
        | Except.ok kv =>
          (kv :: (genShardEntries fs dir rest).1,
           (genShardEntries fs dir rest).2) := rfl

/-- Unfolding `generateImageExamples` on a cons. -/
theorem genImages_cons (fs : FileSys) (sh : Shard) (rest : List Shard) :
    generateImageExamples fs (sh :: rest)
      = match (genShardEntries fs sh.dir sh.sidecar).2 with
        | some e => ((genShardEntries fs sh.dir sh.sidecar).1, some e)
        | none =>
          ((genShardEntries fs sh.dir sh.sidecar).1
             ++ (generateImageExamples fs rest).1,
           (generateImageExamples fs rest).2) := rfl

/-- A sidecar entry whose image file is missing raises `MissingAsset` with
the joined path, before any conversion is attempted. -/
theorem entryStep_missing {fs : FileSys} {dir img_name : String}
    {ps : ImgParams} (h : readFileBytes fs (pathJoin dir img_name) = none) :
    entryStep fs dir img_name ps
      = Except.error (GenError.missingAsset (pathJoin dir img_name)) := by
  simp only [entryStep, h]

/-- Inversion: a successful `entryStep` decodes every field as the source
does, copying `p` and `sa` verbatim. -/
theorem entryStep_ok_inv {fs : FileSys} {dir img_name : String}
    {ps : ImgParams} {kv : String × ImageExample}
    (h : entryStep fs dir img_name ps = Except.ok kv) :
    ∃ bs se st c,
      readFileBytes fs (pathJoin dir img_name) = some bs
      ∧ pyToInt ps.se = some se ∧ pyToInt ps.st = some st
      ∧ pyToFloat ps.c = some c
      ∧ kv = (img_name, ⟨pathJoin dir img_name, bs, ps.p, se, st, c, ps.sa⟩) := by
  simp only [entryStep] at h
  rcases hb : readFileBytes fs (pathJoin dir img_name) with _ | bs <;> rw [hb] at h
  · exact absurd h (by simp)
  rcases hse : pyToInt ps.se with _ | se <;> rw [hse] at h
  · exact absurd h (by simp)
  rcases hst : pyToInt ps.st with _ | st <;> rw [hst] at h
  · exact absurd h (by simp)
  rcases hc : pyToFloat ps.c with _ | c <;> rw [hc] at h
  · exact absurd h (by simp)
  exact ⟨bs, se, st, c, rfl, rfl, rfl, rfl, (Except.ok.inj h).symm⟩

/-- Entries that all succeed are emitted completely, keyed by their
filenames, with no error. -/
theorem genShardEntries_keys_of_ok {fs : FileSys} {dir : String} :
    ∀ entries : List (String × ImgParams),
    (∀ e ∈ entries, stepOk (entryStep fs dir e.1 e.2) = true) →
    (genShardEntries fs dir entries).1.map Prod.fst = entries.map Prod.fst
    ∧ (genShardEntries fs dir entries).2 = none := by
  intro entries
  induction entries with
  | nil => intro _; simp [genShardEntries]
  | cons hd tl ih =>
    intro h
    obtain ⟨nm, ps⟩ := hd
    have h0 : stepOk (entryStep fs dir nm ps) = true := h (nm, ps) (by simp)
    rcases hstep : entryStep fs dir nm ps with e | kv
    · rw [hstep] at h0; simp [stepOk] at h0
    · have ih' := ih fun e he => h e (by simp [he])
      obtain ⟨bs, se, st, c, _, _, _, _, hkv⟩ := entryStep_ok_inv hstep
      simp only [genShardEntries_cons, hstep]
      constructor
      · simp [hkv, ih'.1]
      · exact ih'.2

/-- A run of succeeding entries prepended to anything contributes its
examples and passes the remainder through. -/
theorem genShardEntries_append_of_ok {fs : FileSys} {dir : String} :
    ∀ pre rest : List (String × ImgParams),
    (∀ e ∈ pre, stepOk (entryStep fs dir e.1 e.2) = true) →
    genShardEntries fs dir (pre ++ rest)
      = ((genShardEntries fs dir pre).1 ++ (genShardEntries fs dir rest).1,
         (genShardEntries fs dir rest).2) := by
  intro pre
  induction pre with
  | nil => intro rest _; simp [genShardEntries]
  | cons hd tl ih =>
    intro rest h
    obtain ⟨nm, ps⟩ := hd
    have h0 : stepOk (entryStep fs dir nm ps) = true := h (nm, ps) (by simp)
    rcases hstep : entryStep fs dir nm ps with e | kv
    · rw [hstep] at h0; simp [stepOk] at h0
    · have ih' := ih rest fun e he => h e (by simp [he])
      rw [List.cons_append]
      simp only [genShardEntries_cons, hstep, ih']
      simp

/-- Every emitted image pair comes from a successful `entryStep` on some
entry of the sidecar. -/
theorem genShardEntries_mem {fs : FileSys} {dir : String} :
    ∀ {entries : List (String × ImgParams)} {pq : String × ImageExample},
    pq ∈ (genShardEntries fs dir entries).1 →
    ∃ e ∈ entries, entryStep fs dir e.1 e.2 = Except.ok pq := by
  intro entries
  induction entries with
  | nil => intro pq h; simp [genShardEntries] at h
  | cons hd tl ih =>
    intro pq h
    obtain ⟨nm, ps⟩ := hd
    rcases hstep : entryStep fs dir nm ps with e | kv
    · rw [genShardEntries_cons, hstep] at h
      simp at h
    · rw [genShardEntries_cons, hstep] at h
      simp only [List.mem_cons] at h
      rcases h with h1 | h1
      · subst h1; exact ⟨(nm, ps), by simp, hstep⟩
      · obtain ⟨e, he, h2⟩ := ih h1
        exact ⟨e, by simp [he], h2⟩

/-- Every emitted image pair comes from some shard of the run. -/
theorem genImages_mem {fs : FileSys} :
    ∀ {shards : List Shard} {pq : String × ImageExample},
    pq ∈ (generateImageExamples fs shards).1 →
    ∃ sh ∈ shards, pq ∈ (genShardEntries fs sh.dir sh.sidecar).1 := by
  intro shards
  induction shards with
  | nil => intro pq h; simp [generateImageExamples] at h
  | cons sh tl ih =>
    intro pq h
    rw [genImages_cons] at h
    rcases h2 : (genShardEntries fs sh.dir sh.sidecar).2 with _ | e <;>
      rw [h2] at h <;> simp only [List.mem_append] at h
    · rcases h with h1 | h1
      · exact ⟨sh, by simp, h1⟩
      · obtain ⟨sh', hsh', h3⟩ := ih h1
        exact ⟨sh', by simp [hsh'], h3⟩
    · exact ⟨sh, by simp, h⟩

/-- A run of error-free shards prepended to anything contributes its examples
and passes the remainder through. -/
theorem genImages_append_of_ok {fs : FileSys} :
    ∀ preShards rest : List Shard,
    (∀ sh ∈ preShards, (genShardEntries fs sh.dir sh.sidecar).2 = none) →
    generateImageExamples fs (preShards ++ rest)
      = ((generateImageExamples fs preShards).1
           ++ (generateImageExamples fs rest).1,
         (generateImageExamples fs rest).2) := by
  intro preShards
  induction preShards with
  | nil => intro rest _; simp [generateImageExamples]
  | cons sh tl ih =>
    intro rest h
    have h0 := h sh (by simp)
    have ih' := ih rest fun s hs => h s (by simp [hs])
    rw [List.cons_append]
    simp only [genImages_cons, h0, ih']
    simp

/-! ## Claim theorems -/

/-- C1, counterexample: resolving `first_1k` returns a shard-id list of
length 1, not 1000 — the catalog's lists count thousand-image shards, not
images. -/
theorem C1_counterexample :
    (resolveConfig (buildConfigs rand0) "first_1k").map List.length = some 1
    ∧ (resolveConfig (buildConfigs rand0) "first_1k").map List.length
        ≠ some 1000 := by
  constructor
  · decide
  · decide

/-- C1 (amended): for every supported `(policy, size)` pair among
`{first, random} × {1k, 5k, 10k, 50k, 100k, 500k, 1m}`, resolving
`{policy}_{size}` returns a shard-id list whose length is the number of
1000-image shards, `size / 1000` (1 for `1k`, …, 1000 for `1m`), not the
advertised image count. -/
theorem C1_shard_list_length (rand : Nat → List Nat)
    (hlen : ∀ n ∈ numKList, (rand n).length = n) :
    ∀ num_k ∈ numKList,
      (resolveConfig (buildConfigs rand) ("first_" ++ numKStr num_k)).map
          List.length = some num_k
      ∧ (resolveConfig (buildConfigs rand) ("random_" ++ numKStr num_k)).map
          List.length = some num_k := by
  intro num_k hmem
  rw [resolve_first rand num_k hmem, resolve_random rand num_k hmem]
  have hb : num_k ≤ 1999 := by fin_cases hmem <;> norm_num
  constructor
  · rw [firstPartIds_eq_range' num_k hb]
    simp [List.length_range']
  · simp [hlen num_k hmem]

/-- C1 witness: the amended statement at `rand0` and `num_k = 5`. -/
theorem C1_shard_list_length_witness :
    (resolveConfig (buildConfigs rand0) ("first_" ++ numKStr 5)).map
        List.length = some 5
    ∧ (resolveConfig (buildConfigs rand0) ("random_" ++ numKStr 5)).map
        List.length = some 5 :=
  C1_shard_list_length rand0 (fun n _ => List.length_range' 1 1 n) 5 (by decide)

/-- C2: every `first_{size}` configuration resolves to the contiguous block
`[2, 3, …, num_k + 1]`, which never contains shard id 1, while `random_*`
draws from the full id space `[1, 2000]` (which starts at 1) and `all` is
exactly that full space. -/
theorem C2_first_window_skips_id_one (rand : Nat → List Nat)
    (hchoice : ∀ n ∈ numKList, IsChoiceNoReplace PART_IDS n (rand n)) :
    (∀ num_k ∈ numKList,
      resolveConfig (buildConfigs rand) ("first_" ++ numKStr num_k)
          = some (List.range' 2 num_k)
      ∧ 1 ∉ List.range' 2 num_k)
    ∧ resolveConfig (buildConfigs rand) "all" = some (List.range' 1 2000)
    ∧ 1 ∈ List.range' 1 2000
    ∧ ∀ num_k ∈ numKList, ∀ x ∈ rand num_k, x ∈ List.range' 1 2000 := by
  refine ⟨?_, rfl, ?_, ?_⟩
  · intro num_k hmem
    have hb : num_k ≤ 1999 := by fin_cases hmem <;> norm_num
    refine ⟨?_, ?_⟩
    · rw [resolve_first rand num_k hmem, firstPartIds_eq_range' num_k hb]
    · rw [List.mem_range'_1]; omega
  · rw [List.mem_range'_1]; omega
  · intro num_k hmem x hx
    exact (hchoice num_k hmem).2.2 x hx

/-- C2 witness: the statement's first component at `rand0` and `num_k = 5`. -/
theorem C2_witness :
    resolveConfig (buildConfigs rand0) ("first_" ++ numKStr 5)
        = some (List.range' 2 5)
    ∧ 1 ∉ List.range' 2 5 :=
  (C2_first_window_skips_id_one rand0
      (fun n hn => rand0_choice n (by fin_cases hn <;> norm_num))).1 5 (by decide)

/-- C3, counterexample: an image-mode example whose sidecar `sa` value is not
one of the nine canonical tokens is emitted with that non-canonical sampler
verbatim, falsifying the claim that every emitted sampler is canonical. -/
theorem C3_counterexample :
    ¬ (∀ pq ∈ (generateImageExamples fsC3 [shardC3]).1,
        ∃ tok ∈ samplerTokens, pq.2.sampler = JValue.jstr tok) := by
  decide

/-- C3 (amended): every text-mode example's sampler is one of the nine
canonical tokens, but an image-mode example's sampler is the sidecar entry's
`sa` value copied verbatim — it is canonical only when the sidecar value
already is. -/
theorem C3_sampler_by_mode :
    (∀ (rows : List MetadataRow) (pq : String × TextExample),
      pq ∈ (generateTextExamples rows).1 → pq.2.sampler ∈ samplerTokens)
    ∧ ∀ (fs : FileSys) (shards : List Shard) (pq : String × ImageExample),
        pq ∈ (generateImageExamples fs shards).1 →
        ∃ sh ∈ shards, ∃ e ∈ sh.sidecar, pq.1 = e.1 ∧ pq.2.sampler = e.2.sa := by
  constructor
  · intro rows
    induction rows with
    | nil => intro pq hpq; simp [generateTextExamples] at hpq
    | cons r rs ih =>
      intro pq hpq
      rcases hs : samplerDict r.sampler with _ | tok
      · rw [genText_cons_err hs] at hpq
        simp at hpq
      · rw [genText_cons_ok hs] at hpq
        rcases List.mem_cons.mp hpq with h1 | h1
        · subst h1; exact samplerDict_token hs
        · exact ih pq h1
  · intro fs shards pq hpq
    obtain ⟨sh, hsh, h1⟩ := genImages_mem hpq
    obtain ⟨e, he, hstep⟩ := genShardEntries_mem h1
    obtain ⟨bs, se, st, c, _, _, _, _, hkv⟩ := entryStep_ok_inv hstep
    exact ⟨sh, hsh, e, he, by simp [hkv], by simp [hkv]⟩

/-- C3 witness: the amended text-mode invariant at a one-row table. -/
theorem C3_witness :
    ("z", exC3w) ∈ (generateTextExamples [rowC3w]).1
    ∧ exC3w.sampler ∈ samplerTokens :=
  ⟨by decide, C3_sampler_by_mode.1 [rowC3w] ("z", exC3w) (by decide)⟩

/-- C4: `_SAMPLER_DICT` maps 1..9 to exactly the documented tokens, yields
nothing outside `[1, 9]`, and a row with an out-of-range code aborts the
text-only stream with UnknownSamplerCode, emitting no example for that
row. -/
theorem C4_sampler_translation :
    (samplerDict 1 = some "ddim" ∧ samplerDict 2 = some "plms"
     ∧ samplerDict 3 = some "k_euler" ∧ samplerDict 4 = some "k_euler_ancestral"
     ∧ samplerDict 5 = some "ddik_heunm" ∧ samplerDict 6 = some "k_dpm_2"
     ∧ samplerDict 7 = some "k_dpm_2_ancestral" ∧ samplerDict 8 = some "k_lms"
     ∧ samplerDict 9 = some "others")
    ∧ (∀ c : Int, ¬(1 ≤ c ∧ c ≤ 9) → samplerDict c = none)
    ∧ ∀ (pre : List MetadataRow) (r : MetadataRow) (post : List MetadataRow),
        (∀ q ∈ pre, (samplerDict q.sampler).isSome = true) →
        samplerDict r.sampler = none →
        (generateTextExamples (pre ++ r :: post)).1.map Prod.fst
            = pre.map MetadataRow.image_name
        ∧ (generateTextExamples (pre ++ r :: post)).1.length = pre.length
        ∧ (generateTextExamples (pre ++ r :: post)).2
            = some (GenError.unknownSamplerCode r.sampler) := by
  refine ⟨⟨rfl, rfl, rfl, rfl, rfl, rfl, rfl, rfl, rfl⟩, ?_, ?_⟩
  · intro c h
    unfold samplerDict
    split_ifs <;> first | rfl | omega
  · intro pre r post hpre hr
    rw [genText_append_of_ok pre (r :: post) hpre, genText_cons_err hr]
    have hk := genText_keys_of_ok pre hpre
    have hlen := congrArg List.length hk.1
    simp only [List.length_map] at hlen
    exact ⟨by simp [hk.1], by simp [hlen], by simp⟩

/-- C4 witness: a single out-of-range row (code 0) emits nothing and aborts
with UnknownSamplerCode. -/
theorem C4_witness :
    (generateTextExamples ([] ++ rowBad :: [])).1.map Prod.fst
        = List.map MetadataRow.image_name []
    ∧ (generateTextExamples ([] ++ rowBad :: [])).1.length
        = List.length ([] : List MetadataRow)
    ∧ (generateTextExamples ([] ++ rowBad :: [])).2
        = some (GenError.unknownSamplerCode rowBad.sampler) :=
  C4_sampler_translation.2.2 [] rowBad [] (by simp) (by decide)

/-- C5: in image mode, when the first missing image file sits behind
`preShards` fully-successful shards and `pre` successful entries of the
current shard, the stream yields exactly the examples of everything before
it, in order, and then fails with MissingAsset for the joined path of that
very record; nothing is skipped or substituted. -/
theorem C5_missing_asset (fs : FileSys) (preShards : List Shard) (dir : String)
    (pre : List (String × ImgParams)) (img_name : String) (ps : ImgParams)
    (post : List (String × ImgParams)) (postShards : List Shard)
    (hshards : ∀ sh ∈ preShards, (genShardEntries fs sh.dir sh.sidecar).2 = none)
    (hpre : ∀ e ∈ pre, stepOk (entryStep fs dir e.1 e.2) = true)
    (hmiss : readFileBytes fs (pathJoin dir img_name) = none) :
    generateImageExamples fs
        (preShards ++ (⟨dir, pre ++ (img_name, ps) :: post⟩ : Shard) :: postShards)
      = ((generateImageExamples fs preShards).1 ++ (genShardEntries fs dir pre).1,
         some (GenError.missingAsset (pathJoin dir img_name)))
    ∧ (genShardEntries fs dir pre).1.length = pre.length := by
  have hbad : genShardEntries fs dir (pre ++ (img_name, ps) :: post)
      = ((genShardEntries fs dir pre).1,
         some (GenError.missingAsset (pathJoin dir img_name))) := by
    rw [genShardEntries_append_of_ok pre _ hpre, genShardEntries_cons,
      entryStep_missing hmiss]
    simp
  constructor
  · rw [genImages_append_of_ok preShards _ hshards, genImages_cons]
    dsimp only
    rw [hbad]
  · have hlen := congrArg List.length (genShardEntries_keys_of_ok pre hpre).1
    simpa using hlen

/-- C5 witness: shard `d` lists `a.png` (present) then `b.png` (absent):
`a.png`'s example is yielded, then the stream fails with MissingAsset for
`d/b.png`. -/
theorem C5_witness :
    generateImageExamples fsC5
        ([] ++ (⟨"d", [("a.png", paramsA5)] ++ ("b.png", paramsB5) :: []⟩ : Shard) :: [])
      = ((generateImageExamples fsC5 []).1
           ++ (genShardEntries fsC5 "d" [("a.png", paramsA5)]).1,
         some (GenError.missingAsset (pathJoin "d" "b.png")))
    ∧ (genShardEntries fsC5 "d" [("a.png", paramsA5)]).1.length
        = [("a.png", paramsA5)].length :=
  C5_missing_asset fsC5 [] "d" [("a.png", paramsA5)] "b.png" paramsB5 [] []
    (by simp) (by decide) (by decide)

/-- C6: when every entry succeeds, image mode iterates shards in resolved
order and sidecar entries in insertion order, yielding one example per
filename keyed by that filename and no error; at the spec's worked two-entry
shard the generator yields exactly the two expected examples, keyed
`a.png` then `b.png`, with the decoded fields. -/
theorem C6_assembler_order :
    (∀ (fs : FileSys) (shards : List Shard),
      (∀ sh ∈ shards, ∀ e ∈ sh.sidecar, stepOk (entryStep fs sh.dir e.1 e.2) = true) →
      (generateImageExamples fs shards).2 = none
      ∧ (generateImageExamples fs shards).1.map Prod.fst
          = shards.flatMap fun sh => sh.sidecar.map Prod.fst)
    ∧ generateImageExamples fsC6 [shardC6]
        = ([("a.png", exA6), ("b.png", exB6)], none) := by
  constructor
  · intro fs shards
    induction shards with
    | nil => intro _; simp [generateImageExamples]
    | cons sh tl ih =>
      intro h
      have hsh := genShardEntries_keys_of_ok sh.sidecar (h sh (by simp))
      have ih' := ih fun s hs => h s (by simp [hs])
      rw [genImages_cons, hsh.2]
      refine ⟨ih'.1, ?_⟩
      simp [hsh.1, ih'.2, List.flatMap_cons]
  · decide

/-- C6 witness: the universal component at the spec's worked shard. -/
theorem C6_witness :
    (generateImageExamples fsC6 [shardC6]).2 = none
    ∧ (generateImageExamples fsC6 [shardC6]).1.map Prod.fst
        = [shardC6].flatMap fun sh => sh.sidecar.map Prod.fst :=
  C6_assembler_order.1 fsC6 [shardC6] (by decide)

/-- C7: in text-only mode, when every row's sampler code is known, the
generator yields exactly one example per row, in file order, keyed by the
row's `image_name`, carrying `image_name`, `prompt`, `part_id`, `seed`,
`step` and `cfg` unchanged and the sampler code translated to its token; at
the spec's worked one-row table (code 2) it yields one example with sampler
`plms`. -/
theorem C7_text_mode :
    (∀ rows : List MetadataRow,
      (∀ r ∈ rows, (samplerDict r.sampler).isSome = true) →
      (generateTextExamples rows).2 = none
      ∧ (generateTextExamples rows).1.length = rows.length
      ∧ ∀ pq ∈ (generateTextExamples rows).1.zip rows,
          pq.1.1 = pq.2.image_name ∧ pq.1.2.image_name = pq.2.image_name
          ∧ pq.1.2.prompt = pq.2.prompt ∧ pq.1.2.part_id = pq.2.part_id
          ∧ pq.1.2.seed = pq.2.seed ∧ pq.1.2.step = pq.2.step
          ∧ pq.1.2.cfg = pq.2.cfg
          ∧ samplerDict pq.2.sampler = some pq.1.2.sampler)
    ∧ generateTextExamples [rowC7] = ([("x", exC7)], none)
    ∧ exC7.sampler = "plms" := by
  refine ⟨?_, by decide, rfl⟩
  intro rows
  induction rows with
  | nil => intro _; simp [generateTextExamples]
  | cons r rs ih =>
    intro h
    obtain ⟨tok, htok⟩ := Option.isSome_iff_exists.mp (h r (by simp))
    have ih' := ih fun q hq => h q (by simp [hq])
    rw [genText_cons_ok htok]
    refine ⟨ih'.1, by simp [ih'.2.1], ?_⟩
    intro pq hpq
    rw [List.zip_cons_cons] at hpq
    rcases List.mem_cons.mp hpq with h1 | h1
    · subst h1
      exact ⟨rfl, rfl, rfl, rfl, rfl, rfl, rfl, htok⟩
    · exact ih'.2.2 pq h1

/-- C7 witness: the universal component at the spec's worked one-row
table. -/
theorem C7_witness :
    (generateTextExamples [rowC7]).2 = none
    ∧ (generateTextExamples [rowC7]).1.length = [rowC7].length :=
  ⟨(C7_text_mode.1 [rowC7] (by decide)).1,
   (C7_text_mode.1 [rowC7] (by decide)).2.1⟩

/-- C8: whatever admissible draw built the catalog, every `random_{size}`
configuration resolves to a shard-id list with no duplicates whose members
all lie in `[1, 2000]`. -/
theorem C8_random_ids_valid (rand : Nat → List Nat)
    (hchoice : ∀ n ∈ numKList, IsChoiceNoReplace PART_IDS n (rand n))
    (num_k : Nat) (hmem : num_k ∈ numKList) :
    resolveConfig (buildConfigs rand) ("random_" ++ numKStr num_k)
        = some (rand num_k)
    ∧ (rand num_k).Nodup
    ∧ ∀ x ∈ rand num_k, 1 ≤ x ∧ x ≤ 2000 := by
  refine ⟨resolve_random rand num_k hmem, (hchoice num_k hmem).2.1, ?_⟩
  intro x hx
  have hmemx := (hchoice num_k hmem).2.2 x hx
  rw [PART_IDS, List.mem_range'_1] at hmemx
  omega

/-- C8 witness: the statement at `rand0` and `num_k = 10`. -/
theorem C8_witness :
    resolveConfig (buildConfigs rand0) ("random_" ++ numKStr 10)
        = some (rand0 10)
    ∧ (rand0 10).Nodup
    ∧ ∀ x ∈ rand0 10, 1 ≤ x ∧ x ≤ 2000 :=
  C8_random_ids_valid rand0
    (fun n hn => rand0_choice n (by fin_cases hn <;> norm_num)) 10 (by decide)

/-- C9: resolving `all` returns exactly `[1, 2, …, 2000]`: the list of
length 2000 whose `i`-th element is `1 + i`, sorted in strictly ascending
order. -/
theorem C9_all_ascending (rand : Nat → List Nat) :
    resolveConfig (buildConfigs rand) "all" = some PART_IDS
    ∧ PART_IDS = List.range' 1 2000
    ∧ PART_IDS.length = 2000
    ∧ (∀ i, i < 2000 → PART_IDS[i]? = some (1 + i))
    ∧ List.Sorted (· < ·) PART_IDS := by
  refine ⟨rfl, rfl, by simp [PART_IDS], ?_, ?_⟩
  · intro i hi
    simpa [PART_IDS] using List.getElem?_range' 1 1 hi
  · simpa [List.Sorted, PART_IDS] using List.pairwise_lt_range' 1 2000

/-- C9 witness: the statement at `rand0`, reading off element 0. -/
theorem C9_witness :
    resolveConfig (buildConfigs rand0) "all" = some PART_IDS
    ∧ PART_IDS[0]? = some (1 + 0) :=
  ⟨(C9_all_ascending rand0).1, (C9_all_ascending rand0).2.2.2.1 0 (by norm_num)⟩

/-- C10: the image branch coerces `se`/`st` with `int()` and `c` with
`float()` (numeric strings accepted), copies `p` and `sa` verbatim into the
example, and a value whose conversion is undefined aborts the stream exactly
at that record. -/
theorem C10_conversions :
    (pyToInt (JValue.jstr "42") = some 42
     ∧ pyToInt (JValue.jstr "-7") = some (-7)
     ∧ pyToInt (JValue.jfloat (decVal 75 1)) = some 7
     ∧ pyToFloat (JValue.jstr "7.5") = some (decVal 75 1)
     ∧ pyToInt (JValue.jstr "cat") = none
     ∧ pyToFloat JValue.jnull = none)
    ∧ (∀ (fs : FileSys) (dir img_name : String) (ps : ImgParams)
        (bs : List Nat) (se st : Int) (c : PyFloat),
        readFileBytes fs (pathJoin dir img_name) = some bs →
        pyToInt ps.se = some se → pyToInt ps.st = some st →
        pyToFloat ps.c = some c →
        entryStep fs dir img_name ps
          = Except.ok (img_name,
              ⟨pathJoin dir img_name, bs, ps.p, se, st, c, ps.sa⟩))
    ∧ (∀ (fs : FileSys) (dir img_name : String) (ps : ImgParams)
        (bs : List Nat),
        readFileBytes fs (pathJoin dir img_name) = some bs →
        pyToInt ps.se = none →
        entryStep fs dir img_name ps
          = Except.error (GenError.badConversion img_name "se"))
    ∧ ∀ (fs : FileSys) (dir : String) (pre : List (String × ImgParams))
        (img_name : String) (ps : ImgParams) (post : List (String × ImgParams))
        (err : GenError),
        (∀ e ∈ pre, stepOk (entryStep fs dir e.1 e.2) = true) →
        entryStep fs dir img_name ps = Except.error err →
        genShardEntries fs dir (pre ++ (img_name, ps) :: post)
          = ((genShardEntries fs dir pre).1, some err) := by
  refine ⟨⟨by decide, by decide, by decide, by decide, by decide, rfl⟩, ?_, ?_, ?_⟩
  · intro fs dir img_name ps bs se st c hb hse hst hc
    simp only [entryStep, hb, hse, hst, hc]
  · intro fs dir img_name ps bs hb hse
    simp only [entryStep, hb, hse]
  · intro fs dir pre img_name ps post err hpre herr
    rw [genShardEntries_append_of_ok pre _ hpre, genShardEntries_cons, herr]
    simp

/-- C10 witness: a sidecar entry whose seed is the numeric string `"7"` and
whose cfg is the numeric string `"7.5"` is accepted and decoded. -/
theorem C10_witness :
    entryStep fsW10 "d" "a.png" paramsW10
      = Except.ok ("a.png",
          ⟨pathJoin "d" "a.png", [3], paramsW10.p, 7, 20, decVal 75 1,
           paramsW10.sa⟩) :=
  C10_conversions.2.1 fsW10 "d" "a.png" paramsW10 [3] 7 20 (decVal 75 1)
    (by decide) (by decide) (by decide) (by decide)

end DiffusionDB
